import Mathlib

/-!
Verification of the `messages` package against its specification.

The development shallowly embeds the two modules under scrutiny:

* `messages/eventloop.py` — the asynchronous dispatch queue `MessageLoop`
  (`add_message`, `send_loop`).  The queue holds arbitrary Python objects;
  the only capability the loop probes for is a `send` attribute
  (`hasattr(msg, 'send')`), so an enqueued object is modelled as a record
  carrying an identity tag and a boolean `hasSend` flag.  `gevent.spawn`
  schedules a greenlet and returns immediately; we record the sequence of
  spawn calls in a `spawned` list, which captures scheduling order (the
  property the spec talks about) without modelling greenlet execution.

* `messages/telegram.py` — the `TelegramBot` adapter
  (`construct_message`, `send_content`, `send`, `get_chat_id`).
  Python dicts are embedded as functions `String → Option Value`
  (Python dict equality and lookup are insensitive to insertion order).
  Network I/O is modelled by a trace of `CallEvent`s, with HTTP responses
  supplied by an environment `Nat → HttpResponse` indexed by call number;
  diagnostic prints become a trace of `OutEvent`s; a Python exception that
  the source could actually raise becomes an `Option PyError` outcome.
-/

/-- A value stored in one of the Python dicts used by the adapter:
`Value.pynone` is Python's `None`; chat ids are strings when supplied by the
caller and ints when produced by the `getUpdates` lookup. -/
inductive Value where
  | pynone
  | str (s : String)
  | int (n : Int)
deriving DecidableEq

/-- A Python dict with string keys, viewed extensionally as a partial map. -/
abbrev PyDict := String → Option Value

/-- The empty dict `{}`. -/
def PyDict.empty : PyDict := fun _ => Option.none

/-- `d[k] = v` — Python dict item assignment. -/
def PyDict.set (d : PyDict) (k : String) (v : Value) : PyDict :=
  fun k' => if k' = k then some v else d k'

/-- `d.update(ps)` — every key of `ps` overrides the corresponding key of `d`. -/
def PyDict.merge (d ps : PyDict) : PyDict :=
  fun k => match ps k with
    | some v => some v
    | Option.none => d k

/-- An arbitrary Python object handed to the dispatch queue: `hasSend`
models `hasattr(msg, 'send')`, `tag` is the object's identity. -/
structure PyObj where
  tag : Nat
  hasSend : Bool
deriving DecidableEq

/-- State of `MessageLoop`: the pending deque `messages` plus the ordered
record `spawned` of the `gevent.spawn(msg.send)` calls made so far. -/
structure MessageLoop where
  messages : List PyObj
  spawned : List PyObj
deriving DecidableEq

/-- The body of `MessageLoop.send_loop`'s `while self.messages:` loop,
as a function of the loop state `(queue, spawned)`:
pop the head, spawn its `send` when it has one, repeat until empty. -/
def MessageLoop.drainStep : List PyObj → List PyObj → List PyObj × List PyObj
  | [], sp => ([], sp)
  | m :: rest, sp =>
      MessageLoop.drainStep rest (if m.hasSend then sp ++ [m] else sp)

/-- Number of loop iterations `send_loop` performs (one pop per iteration). -/
def MessageLoop.drainSteps : List PyObj → Nat
  | [] => 0
  | _ :: rest => 1 + MessageLoop.drainSteps rest

/-- `MessageLoop.send_loop` — drain the queue, spawning each popped message
that exposes a `send` capability. -/
def MessageLoop.send_loop (l : MessageLoop) : MessageLoop :=
  { messages := (MessageLoop.drainStep l.messages l.spawned).1,
    spawned := (MessageLoop.drainStep l.messages l.spawned).2 }

/-- `MessageLoop.add_message` — append to the deque, then run `send_loop`. -/
def MessageLoop.add_message (l : MessageLoop) (message : PyObj) : MessageLoop :=
  MessageLoop.send_loop { l with messages := l.messages ++ [message] }

/-- An HTTP response as `telegram.py` consumes it: `r.status_code`, `r.text`. -/
structure HttpResponse where
  status_code : Nat
  text : String

/-- A network call issued by the adapter: `requests.post(url, json=payload)`
or the `requests.get(url)` performed by `get_chat_id`. -/
inductive CallEvent where
  | post (url : String) (payload : PyDict)
  | getRequest (url : String)

/-- Does this call event come from `requests.get` (the chat-id lookup)? -/
def isLookup : CallEvent → Bool
  | CallEvent.getRequest _ => true
  | CallEvent.post _ _ => false

/-- A diagnostic print produced by `send_content` / `send` (timestamps, being
wall-clock noise, are abstracted away; the structure of each line is kept). -/
inductive OutEvent where
  | messageCreated
  | sent (content_type : String)
  | sendError (content_type : String) (response_text : String)
  | botInfo
  | messageSent
deriving DecidableEq

/-- Is this output line the `'Error while sending ...'` failure report? -/
def isErrorReport : OutEvent → Bool
  | OutEvent.sendError _ _ => true
  | _ => false

/-- A Python exception the embedded code could actually raise. -/
inductive PyError where
  | keyError (k : String)
  | nameError (n : String)
  | typeError
deriving DecidableEq

/-- The configuration failure raised while constructing an adapter whose
required credential fields are absent. -/
inductive ConfigurationError where
  | missingCredentials
deriving DecidableEq

/-- The `TelegramBot` adapter state after a successful `__init__`. -/
structure TelegramBot where
  from_ : Option String
  credentials : String
  chat_id : Value
  to_ : Option String
  subject : Option String
  body : String
  attachments : List String
  params : PyDict
  base_url : String
  message : PyDict
  verbose : Bool

/-- Modelled from the spec: `configure` lives in `messages/_config.py`, which
is not among the available sources; per the spec, constructing an adapter
"with required credential/recipient fields absent raises ConfigurationError",
and for `TelegramBot` the required field marked `credentials={'credentials'}`
is the bot token.  `configure` resolves and returns the credential, failing
when it is absent. -/
def configure (credentials : Option String) : Except ConfigurationError String :=
  match credentials with
  | some c => Except.ok c
  | Option.none => Except.error ConfigurationError.missingCredentials

/-- `TelegramBot.__init__`: run `configure` (which raises on a missing
credential), then populate the remaining fields.  The second component is the
trace of network calls made during construction — the `__init__` body contains
none. -/
def mkTelegramBot (from_ : Option String) (credentials : Option String)
    (chat_id : Value) (to_ : Option String) (subject : Option String)
    (body : String) (attachments : List String) (params : PyDict)
    (verbose : Bool) :
    Except ConfigurationError TelegramBot × List CallEvent :=
  match configure credentials with
  | Except.error e => (Except.error e, [])
  | Except.ok creds =>
      (Except.ok {
        from_ := from_
        credentials := creds
        chat_id := chat_id
        to_ := to_
        subject := subject
        body := body
        attachments := attachments
        params := params
        base_url := "https://api.telegram.org/bot" ++ creds
        message := PyDict.empty
        verbose := verbose }, [])

/-- `username.split('@')[-1]`: the characters after the last `'@'`
(the whole string when no `'@'` occurs). -/
def lastAtComponent (s : String) : String :=
  String.mk (s.data.foldl (fun acc c => if c = '@' then [] else acc ++ [c]) [])

/-- The scan of `chats['result']` inside `get_chat_id`: first chat whose
`['message']['from']['username']` equals `user` yields its
`['message']['from']['id']`. -/
def findId : List (String × Int) → String → Option Int
  | [], _ => Option.none
  | (n, i) :: rest, user => if n = user then some i else findId rest user

/-- `TelegramBot.get_chat_id`: when a username is given, issue one
`GET <base_url>/getUpdates` (whose decoded result is the environment
`updates`, a list of (username, id) pairs) and scan it; otherwise do
nothing.  An unmatched username falls off the loop and returns `None`. -/
def TelegramBot.get_chat_id (b : TelegramBot) (updates : List (String × Int))
    (username : Option String) : List CallEvent × Option Int :=
  match username with
  | Option.none => ([], Option.none)
  | some u =>
      ([CallEvent.getRequest (b.base_url ++ "/getUpdates")],
       findId updates (lastAtComponent u))

/-- The `'From: ...'` line of `construct_message`: appended exactly when
`self.from_` is truthy (not `None`, not the empty string). -/
def fromLine (b : TelegramBot) : String :=
  match b.from_ with
  | some f => if f = "" then "" else "From: " ++ f ++ "\n"
  | Option.none => ""

/-- The `'Subject: ...'` line of `construct_message`: appended exactly when
`self.subject` is truthy. -/
def subjectLine (b : TelegramBot) : String :=
  match b.subject with
  | some s => if s = "" then "" else "Subject: " ++ s ++ "\n"
  | Option.none => ""

/-- `TelegramBot.construct_message`: set `message['chat_id']`, rebuild
`message['text']` from the optional From/Subject lines plus the body, then
`message.update(params)`. -/
def TelegramBot.construct_message (b : TelegramBot) : TelegramBot :=
  let m := PyDict.set b.message "chat_id" b.chat_id
  let m := PyDict.set m "text" (Value.str (fromLine b ++ subjectLine b ++ b.body))
  let m := PyDict.merge m b.params
  { b with message := m }

/-- The `content_type` computed at the top of `send_content`.  For an unknown
method the Python local stays unbound (`Except.ok Option.none` here — the
`NameError` fires only if a print later reads it); for `'/sendDocument'`
reading `self.message['document']` can raise `KeyError` (absent) or
`TypeError` (concatenating a non-string). -/
def content_type_of (b : TelegramBot) (method : String) :
    Except PyError (Option String) :=
  if method = "/sendMessage" then Except.ok (some "Message body")
  else if method = "/sendDocument" then
    match b.message "document" with
    | some (Value.str s) => Except.ok (some ("Attachment: " ++ s))
    | some _ => Except.error PyError.typeError
    | Option.none => Except.error (PyError.keyError "document")
  else Except.ok Option.none

/-- `TelegramBot.send_content`: compute `content_type`, POST the current
`message` to `base_url + method`, then print a success line when the status
is 200 and `verbose`, or an error report plus `r.text` when the status
exceeds 300 and `verbose`.  Returns (calls made, lines printed, exception). -/
def TelegramBot.send_content (b : TelegramBot) (method : String)
    (r : HttpResponse) : List CallEvent × List OutEvent × Option PyError :=
  match content_type_of b method with
  | Except.error e => ([], [], some e)
  | Except.ok ct? =>
      let ev := CallEvent.post (b.base_url ++ method) b.message
      if r.status_code = 200 ∧ b.verbose = true then
        match ct? with
        | some ct => ([ev], [OutEvent.sent ct], Option.none)
        | Option.none => ([ev], [], some (PyError.nameError "content_type"))
      else if 300 < r.status_code ∧ b.verbose = true then
        match ct? with
        | some ct => ([ev], [OutEvent.sendError ct r.text], Option.none)
        | Option.none => ([ev], [], some (PyError.nameError "content_type"))
      else ([ev], [], Option.none)

/-- The aggregate outcome of a `send`: final adapter state, network calls in
order, diagnostic output in order, and the exception (if one propagated). -/
structure SendOutcome where
  bot : TelegramBot
  calls : List CallEvent
  out : List OutEvent
  err : Option PyError

/-- The `for a in self.attachments:` loop of `send`: set
`message['document'] = a`, call `send_content('/sendDocument')`, continue
with the next attachment unless an exception propagated.  `i` numbers the
call within the whole send, indexing the response environment `env`. -/
def TelegramBot.send_attachments (env : Nat → HttpResponse) :
    TelegramBot → Nat → List String → SendOutcome
  | b, _, [] => { bot := b, calls := [], out := [], err := Option.none }
  | b, i, a :: rest =>
      let b' := { b with message := PyDict.set b.message "document" (Value.str a) }
      let r := TelegramBot.send_content b' "/sendDocument" (env i)
      match r.2.2 with
      | some e => { bot := b', calls := r.1, out := r.2.1, err := some e }
      | Option.none =>
          let o := TelegramBot.send_attachments env b' (i + 1) rest
          { bot := o.bot, calls := r.1 ++ o.calls, out := r.2.1 ++ o.out,
            err := o.err }

/-- `TelegramBot.send`: construct the message, optionally print the
debugging banner, send the body (`/sendMessage`, response `env 0`), send each
attachment (`/sendDocument`, responses `env 1, env 2, ...`), optionally print
the adapter info, and finally print `'Message sent.'`. -/
def TelegramBot.send (b : TelegramBot) (env : Nat → HttpResponse) :
    SendOutcome :=
  let b1 := TelegramBot.construct_message b
  let out0 : List OutEvent :=
    if b1.verbose = true then [OutEvent.messageCreated] else []
  let r1 := TelegramBot.send_content b1 "/sendMessage" (env 0)
  match r1.2.2 with
  | some e => { bot := b1, calls := r1.1, out := out0 ++ r1.2.1, err := some e }
  | Option.none =>
      let o := TelegramBot.send_attachments env b1 1 b1.attachments
      match o.err with
      | some e =>
          { bot := o.bot, calls := r1.1 ++ o.calls,
            out := out0 ++ r1.2.1 ++ o.out, err := some e }
      | Option.none =>
          let outv : List OutEvent :=
            if o.bot.verbose = true then [OutEvent.botInfo] else []
          { bot := o.bot, calls := r1.1 ++ o.calls,
            out := out0 ++ r1.2.1 ++ o.out ++ outv ++ [OutEvent.messageSent],
            err := Option.none }

/-- Concrete adapter for the round-trip scenario: sender "Bob", subject "Hi",
body "Hello", everything else defaulted. -/
def bobBot : TelegramBot :=
  { from_ := some "Bob"
    credentials := "TOKEN"
    chat_id := Value.pynone
    to_ := Option.none
    subject := some "Hi"
    body := "Hello"
    attachments := []
    params := PyDict.empty
    base_url := "https://api.telegram.org/bot" ++ "TOKEN"
    message := PyDict.empty
    verbose := false }

/-- Concrete adapter for the lookup scenario: recipient handle "alice",
no pre-known chat id. -/
def aliceBot : TelegramBot :=
  { from_ := Option.none
    credentials := "TOKEN"
    chat_id := Value.pynone
    to_ := some "alice"
    subject := Option.none
    body := "hi"
    attachments := []
    params := PyDict.empty
    base_url := "https://api.telegram.org/bot" ++ "TOKEN"
    message := PyDict.empty
    verbose := false }

/-- Concrete verbose adapter whose payload already carries a document,
used to exercise the failure-report path of `send_content`. -/
def verboseBot : TelegramBot :=
  { from_ := Option.none
    credentials := "TOKEN"
    chat_id := Value.str "42"
    to_ := Option.none
    subject := Option.none
    body := "hi"
    attachments := ["http://x/doc.pdf"]
    params := PyDict.empty
    base_url := "https://api.telegram.org/bot" ++ "TOKEN"
    message := PyDict.set PyDict.empty "document" (Value.str "http://x/doc.pdf")
    verbose := true }

/-- Concrete non-verbose adapter, used to show that with `verbose = False`
a failing transmission produces no diagnostic output at all. -/
def quietBot : TelegramBot :=
  { from_ := Option.none
    credentials := "TOKEN"
    chat_id := Value.str "42"
    to_ := Option.none
    subject := Option.none
    body := "hi"
    attachments := []
    params := PyDict.empty
    base_url := "https://api.telegram.org/bot" ++ "TOKEN"
    message := PyDict.empty
    verbose := false }

/-- The 404 response used by concrete failure scenarios. -/
def notFound : HttpResponse := { status_code := 404, text := "Not Found" }

/-! ## Helper lemmas -/

/-- Draining a queue empties it and appends, in order, exactly the popped
messages that expose a `send` capability to the spawn record. -/
theorem drainStep_spec (q : List PyObj) : ∀ sp : List PyObj,
    MessageLoop.drainStep q sp = ([], sp ++ q.filter (fun m => m.hasSend)) := by
  induction q with
  | nil => intro sp; simp [MessageLoop.drainStep]
  | cons m rest ih =>
      intro sp
      rw [MessageLoop.drainStep, ih]
      cases h : m.hasSend <;> simp [List.filter_cons, h]

/-- `send_loop` computed in closed form. -/
theorem send_loop_spec (l : MessageLoop) :
    MessageLoop.send_loop l =
      { messages := [], spawned := l.spawned ++ l.messages.filter (fun m => m.hasSend) } := by
  simp [MessageLoop.send_loop, drainStep_spec]

/-- `add_message` computed in closed form. -/
theorem add_message_spec (l : MessageLoop) (m : PyObj) :
    MessageLoop.add_message l m =
      { messages := [],
        spawned := l.spawned ++ (l.messages ++ [m]).filter (fun x => x.hasSend) } := by
  simp [MessageLoop.add_message, send_loop_spec]

/-- Folding a sequence of enqueues from an empty queue spawns, in order, the
enqueued messages that have `send`, after whatever was spawned before. -/
theorem foldl_add_message (msgs : List PyObj) : ∀ sp : List PyObj,
    (msgs.foldl MessageLoop.add_message { messages := [], spawned := sp }).spawned
      = sp ++ msgs.filter (fun m => m.hasSend) := by
  induction msgs with
  | nil => intro sp; simp
  | cons m rest ih =>
      intro sp
      rw [List.foldl_cons, add_message_spec]
      simp only [List.nil_append]
      rw [ih]
      cases h : m.hasSend <;> simp [List.filter_cons, h]

/-- `drainSteps` counts one iteration per queued message. -/
theorem drainSteps_eq_length (q : List PyObj) :
    MessageLoop.drainSteps q = q.length := by
  induction q with
  | nil => rfl
  | cons m rest ih => simp [MessageLoop.drainSteps, ih, Nat.add_comm]

/-! ## Claims about the dispatch queue -/

/-- C1: messages enqueued via `add_message` in order m1, m2, m3, ... are
handed to `gevent.spawn` in exactly that order: the spawn record after any
sequence of enqueues (starting from the fresh loop) is the enqueue sequence
restricted to the messages exposing a `send` capability, in enqueue order. -/
theorem spawn_order_eq_enqueue_order (msgs : List PyObj) :
    (msgs.foldl MessageLoop.add_message { messages := [], spawned := [] }).spawned
      = msgs.filter (fun m => m.hasSend) := by
  rw [foldl_add_message]
  simp

/-- C4: enqueueing an object without a `send` capability never raises (the
embedded `add_message` is total) and never schedules it: the spawn record is
exactly what draining the pre-existing queue yields — the send-capable
messages already queued are still scheduled, the new object is dropped — and
the queue drains to empty. -/
theorem add_message_no_send_dropped (l : MessageLoop) (m : PyObj)
    (h : m.hasSend = false) :
    (MessageLoop.add_message l m).spawned
        = l.spawned ++ l.messages.filter (fun x => x.hasSend)
    ∧ (MessageLoop.add_message l m).messages = [] := by
  rw [add_message_spec]
  refine ⟨?_, rfl⟩
  simp [List.filter_append, List.filter_cons, h]

/-- Closed-form instance of C4: a send-less object (tag 2) enqueued after a
send-capable one (tag 1, already queued) is dropped while tag 1 is spawned. -/
theorem add_message_no_send_dropped_witness :
    (MessageLoop.add_message
        { messages := [PyObj.mk 1 true], spawned := [PyObj.mk 0 true] }
        (PyObj.mk 2 false)).spawned
      = [PyObj.mk 0 true]
          ++ [PyObj.mk 1 true].filter (fun x => x.hasSend)
    ∧ (MessageLoop.add_message
        { messages := [PyObj.mk 1 true], spawned := [PyObj.mk 0 true] }
        (PyObj.mk 2 false)).messages = [] :=
  add_message_no_send_dropped
    { messages := [PyObj.mk 1 true], spawned := [PyObj.mk 0 true] }
    (PyObj.mk 2 false) rfl

/-- C9: the drain step always terminates with the queue observed empty,
performing exactly one head removal per queued message (it is a total
function of the queue state, never waiting on any spawned send), and
consequently `add_message` always returns, leaving the queue empty, with no
bound on the queue depth it accepts. -/
theorem send_loop_terminates_empty (l : MessageLoop) (m : PyObj) :
    (MessageLoop.send_loop l).messages = []
    ∧ MessageLoop.drainSteps l.messages = l.messages.length
    ∧ (MessageLoop.add_message l m).messages = [] := by
  refine ⟨?_, drainSteps_eq_length l.messages, ?_⟩
  · rw [send_loop_spec]
  · rw [add_message_spec]

/-! ## Dict lemmas -/

/-- Reading the key just written. -/
theorem PyDict.get_set_self (d : PyDict) (k : String) (v : Value) :
    PyDict.set d k v k = some v := by
  simp [PyDict.set]

/-- Writing the same key twice keeps only the second write. -/
theorem PyDict.set_set_same (d : PyDict) (k : String) (v w : Value) :
    PyDict.set (PyDict.set d k v) k w = PyDict.set d k w := by
  funext k'
  by_cases h : k' = k <;> simp [PyDict.set, h]

/-! ## send_content lemmas -/

/-- `send_content('/sendMessage')` posts the current payload once and never
raises, whatever the response status. -/
theorem send_content_sendMessage (b : TelegramBot) (r : HttpResponse) :
    (TelegramBot.send_content b "/sendMessage" r).1
        = [CallEvent.post (b.base_url ++ "/sendMessage") b.message]
    ∧ (TelegramBot.send_content b "/sendMessage" r).2.2 = Option.none := by
  unfold TelegramBot.send_content content_type_of
  simp only [reduceIte]
  constructor <;> (split <;> try split) <;> rfl

/-- `send_content('/sendDocument')` with a string document in the payload
posts the current payload once and never raises, whatever the status. -/
theorem send_content_sendDocument (b : TelegramBot) (r : HttpResponse)
    (s : String) (h : b.message "document" = some (Value.str s)) :
    (TelegramBot.send_content b "/sendDocument" r).1
        = [CallEvent.post (b.base_url ++ "/sendDocument") b.message]
    ∧ (TelegramBot.send_content b "/sendDocument" r).2.2 = Option.none := by
  unfold TelegramBot.send_content content_type_of
  rw [h]
  simp only [reduceIte, String.reduceEq]
  constructor <;> (split <;> try split) <;> rfl

/-- The attachment loop posts one `/sendDocument` call per attachment, in
list order, each carrying the payload with `'document'` rebound to that
attachment; no exception propagates, whatever the statuses. -/
theorem send_attachments_spec (env : Nat → HttpResponse) (as : List String) :
    ∀ (b : TelegramBot) (i : Nat),
    (TelegramBot.send_attachments env b i as).calls
        = as.map (fun a => CallEvent.post (b.base_url ++ "/sendDocument")
            (PyDict.set b.message "document" (Value.str a)))
    ∧ (TelegramBot.send_attachments env b i as).err = Option.none := by
  induction as with
  | nil => intro b i; simp [TelegramBot.send_attachments]
  | cons a rest ih =>
      intro b i
      have hdoc : (PyDict.set b.message "document" (Value.str a)) "document"
          = some (Value.str a) := PyDict.get_set_self _ _ _
      obtain ⟨hc, he⟩ := send_content_sendDocument
        { b with message := PyDict.set b.message "document" (Value.str a) }
        (env i) a hdoc
      obtain ⟨ihc, ihe⟩ := ih
        { b with message := PyDict.set b.message "document" (Value.str a) }
        (i + 1)
      unfold TelegramBot.send_attachments
      simp only [he]
      constructor
      · simp only [hc, ihc, List.map_cons, List.cons_append, List.nil_append]
        simp [PyDict.set_set_same]
      · simp only [ihe]

/-- `send` never lets an exception propagate, whatever the statuses. -/
theorem send_err_none (b : TelegramBot) (env : Nat → HttpResponse) :
    (TelegramBot.send b env).err = Option.none := by
  unfold TelegramBot.send
  simp only [(send_content_sendMessage (TelegramBot.construct_message b) (env 0)).2,
    (send_attachments_spec env (TelegramBot.construct_message b).attachments
      (TelegramBot.construct_message b) 1).2]

/-! ## Claims about the adapter -/

/-- C2: one `send()` issues exactly one body POST (`/sendMessage` with the
constructed payload) followed by one `/sendDocument` POST per attachment, in
list order, each carrying the payload with `'document'` bound to that
attachment — and this trace is the same for every response environment, so a
non-success status on any call never prevents the remaining calls. -/
theorem send_call_trace (b : TelegramBot) (env : Nat → HttpResponse) :
    (TelegramBot.send b env).calls
      = CallEvent.post (b.base_url ++ "/sendMessage")
          (TelegramBot.construct_message b).message
        :: b.attachments.map (fun a =>
            CallEvent.post (b.base_url ++ "/sendDocument")
              (PyDict.set (TelegramBot.construct_message b).message "document"
                (Value.str a))) := by
  unfold TelegramBot.send
  simp only [(send_content_sendMessage (TelegramBot.construct_message b) (env 0)).2,
    (send_attachments_spec env (TelegramBot.construct_message b).attachments
      (TelegramBot.construct_message b) 1).2,
    (send_content_sendMessage (TelegramBot.construct_message b) (env 0)).1,
    (send_attachments_spec env (TelegramBot.construct_message b).attachments
      (TelegramBot.construct_message b) 1).1]
  simp [TelegramBot.construct_message]

/-- C3: after `construct_message`, the payload `text` is exactly the
`'From: ...'` line (present iff the sender is set and non-empty), followed by
the `'Subject: ...'` line (present iff the subject is set and non-empty),
followed by the body, in that concatenation order — provided the free-form
`params` map does not itself override the `'text'` key. -/
theorem construct_message_text_order (b : TelegramBot)
    (hp : b.params "text" = Option.none) :
    (TelegramBot.construct_message b).message "text"
      = some (Value.str (fromLine b ++ subjectLine b ++ b.body)) := by
  simp [TelegramBot.construct_message, PyDict.merge, PyDict.set, hp]

/-- Closed-form instance of C3 at sender "Bob", subject "Hi", body "Hello". -/
theorem construct_message_text_order_witness :
    bobBot.params "text" = Option.none
    ∧ (TelegramBot.construct_message bobBot).message "text"
        = some (Value.str "From: Bob\nSubject: Hi\nHello") := by
  refine ⟨rfl, ?_⟩
  have h := construct_message_text_order bobBot rfl
  exact h

/-- C5 counterexample: with `verbose = False` a non-success (404) response on
the body transmission produces no diagnostic output at all — the claim that a
non-success status "is reported via diagnostic output" fails as stated. -/
theorem nonsuccess_not_reported_when_quiet :
    300 < notFound.status_code
    ∧ (TelegramBot.send_content quietBot "/sendMessage" notFound).2.1 = []
    ∧ (TelegramBot.send quietBot (fun _ => notFound)).out.any isErrorReport
        = false := by
  refine ⟨by decide, rfl, rfl⟩

/-- C5 (amended): no transmission call made during `send()` — neither the
body call (`/sendMessage`) nor any per-attachment call (`/sendDocument`) —
lets an exception propagate: `send_content` returns normally for every
response status, and the whole `send` finishes without exception under every
response environment; when the verbose flag is set, a non-success (>300)
status on either kind of call is reported via the diagnostic error line. -/
theorem send_nonraising_and_verbose_reporting (b : TelegramBot)
    (r : HttpResponse) (env : Nat → HttpResponse) (s : String) :
    (TelegramBot.send_content b "/sendMessage" r).2.2 = Option.none
    ∧ (b.message "document" = some (Value.str s) →
        (TelegramBot.send_content b "/sendDocument" r).2.2 = Option.none)
    ∧ (b.verbose = true → 300 < r.status_code →
        (TelegramBot.send_content b "/sendMessage" r).2.1.any isErrorReport
          = true)
    ∧ (b.message "document" = some (Value.str s) → b.verbose = true →
        300 < r.status_code →
        (TelegramBot.send_content b "/sendDocument" r).2.1.any isErrorReport
          = true)
    ∧ (TelegramBot.send b env).err = Option.none := by
  have h200 : 300 < r.status_code → ¬(r.status_code = 200 ∧ b.verbose = true) := by
    rintro hs ⟨h1, _⟩
    omega
  refine ⟨(send_content_sendMessage b r).2,
    fun h => (send_content_sendDocument b r s h).2, ?_, ?_, send_err_none b env⟩
  · intro hv hs
    unfold TelegramBot.send_content content_type_of
    simp only [reduceIte]
    rw [if_neg (h200 hs), if_pos ⟨hs, hv⟩]
    rfl
  · intro hdoc hv hs
    unfold TelegramBot.send_content content_type_of
    rw [hdoc]
    simp only [reduceIte, String.reduceEq]
    rw [if_neg (h200 hs), if_pos ⟨hs, hv⟩]
    rfl

/-- Closed-form instance of C5 (amended): verbose adapter whose payload
carries a document, 404 response on both kinds of call. -/
theorem send_nonraising_and_verbose_reporting_witness :
    (TelegramBot.send_content verboseBot "/sendMessage" notFound).2.2
        = Option.none
    ∧ (verboseBot.message "document" = some (Value.str "http://x/doc.pdf") →
        (TelegramBot.send_content verboseBot "/sendDocument" notFound).2.2
          = Option.none)
    ∧ (verboseBot.verbose = true → 300 < notFound.status_code →
        (TelegramBot.send_content verboseBot "/sendMessage" notFound).2.1.any
            isErrorReport = true)
    ∧ (verboseBot.message "document" = some (Value.str "http://x/doc.pdf") →
        verboseBot.verbose = true → 300 < notFound.status_code →
        (TelegramBot.send_content verboseBot "/sendDocument" notFound).2.1.any
            isErrorReport = true)
    ∧ (TelegramBot.send verboseBot (fun _ => notFound)).err = Option.none :=
  send_nonraising_and_verbose_reporting verboseBot notFound (fun _ => notFound)
    "http://x/doc.pdf"

/-- C6: on the adapter configured with handle "alice" and no chat id,
`send()` issues no lookup call at all (every call in its trace is a POST,
none is the `getUpdates` GET), and the payload keeps `chat_id = None` —
even though `get_chat_id`, had it been called, would have issued the GET and
returned `None` for an unmatched handle.  This contradicts the class
docstring, which says a recipient given via `to` is looked up via API call. -/
theorem send_skips_chat_id_lookup :
    (TelegramBot.send aliceBot (fun _ => notFound)).calls.all
        (fun e => !isLookup e) = true
    ∧ (TelegramBot.send aliceBot (fun _ => notFound)).bot.message "chat_id"
        = some Value.pynone
    ∧ TelegramBot.get_chat_id aliceBot [] (some "alice")
        = ([CallEvent.getRequest (aliceBot.base_url ++ "/getUpdates")],
           Option.none) :=
  ⟨rfl, rfl, rfl⟩

/-- C7: constructing the adapter with the required credential absent raises
`ConfigurationError`, and construction issues no network call (its call
trace is empty), for every combination of the remaining arguments. -/
theorem missing_credentials_raises_before_network (from_ : Option String)
    (chat_id : Value) (to_ subject : Option String) (body : String)
    (attachments : List String) (params : PyDict) (verbose : Bool) :
    (mkTelegramBot from_ Option.none chat_id to_ subject body attachments
        params verbose).1
      = Except.error ConfigurationError.missingCredentials
    ∧ (mkTelegramBot from_ Option.none chat_id to_ subject body attachments
        params verbose).2 = [] :=
  ⟨rfl, rfl⟩

/-- C8: `construct_message` mutates only the internal payload buffer: every
other adapter field is unchanged (and the embedded `construct_message` is a
pure state transformer — the source method performs no network call). -/
theorem construct_message_frame (b : TelegramBot) :
    (TelegramBot.construct_message b).from_ = b.from_
    ∧ (TelegramBot.construct_message b).credentials = b.credentials
    ∧ (TelegramBot.construct_message b).chat_id = b.chat_id
    ∧ (TelegramBot.construct_message b).to_ = b.to_
    ∧ (TelegramBot.construct_message b).subject = b.subject
    ∧ (TelegramBot.construct_message b).body = b.body
    ∧ (TelegramBot.construct_message b).attachments = b.attachments
    ∧ (TelegramBot.construct_message b).params = b.params
    ∧ (TelegramBot.construct_message b).base_url = b.base_url
    ∧ (TelegramBot.construct_message b).verbose = b.verbose :=
  ⟨rfl, rfl, rfl, rfl, rfl, rfl, rfl, rfl, rfl, rfl⟩

/-- C10: `construct_message` is idempotent on the payload buffer: a second
call rebuilds `chat_id` and `text` from the unchanged adapter fields and
re-merges the same `params`, leaving the message dict exactly as after the
first call. -/
theorem construct_message_idempotent (b : TelegramBot) :
    (TelegramBot.construct_message (TelegramBot.construct_message b)).message
      = (TelegramBot.construct_message b).message := by
  funext k
  simp only [TelegramBot.construct_message, PyDict.merge, PyDict.set,
    fromLine, subjectLine]
  cases hps : b.params k with
  | some v => simp [hps]
  | none =>
      by_cases ht : k = "text"
      · simp [hps, ht]
      · by_cases hc : k = "chat_id"
        · simp [hps, ht, hc]
        · simp [hps, ht, hc]
